import Mathlib

/-!
Verification development for the `api_to_tf` repository: a shallow embedding of
`internal/client/client.go` (the REST client for the remote runtime-group API)
and of `internal/provider/runtime_group_resource.go` (the Terraform resource
shell), together with theorems settling the specification claims.

Library calls made by the Go code (`net/url`, `encoding/json`, `net/http`,
`golang-jwt/jwt`, `regexp`) are modelled explicitly; each model carries a doc
comment naming the library behaviour it reflects.
-/

/-- Result check for `Except` values (Go's `err == nil` convention). -/
def isOkE {ε α : Type} : Except ε α → Bool
  | .ok _ => true
  | .error _ => false

/-- Modelled from `net/url.Parse`: parsing fails when the raw URL contains an
ASCII control character (the failure mode the spec cites); the rarer failure
modes of `net/url` are not modelled, so model-level failure implies Go-level
failure. -/
def urlParseOk (s : String) : Bool :=
  !(s.data.any fun c => decide (c.toNat < 32) || decide (c.toNat == 127))

/-- `url.Parse` as used by `New`: only the success/failure outcome is consumed. -/
def urlParse (s : String) : Except String Unit :=
  if urlParseOk s then .ok () else .error "net/url: invalid control character in URL"

/-- Base64url alphabet accepted by `jwt.DecodeSegment` (`base64.URLEncoding`
after padding). -/
def b64urlChar (c : Char) : Bool :=
  decide ('A' ≤ c ∧ c ≤ 'Z') || decide ('a' ≤ c ∧ c ≤ 'z') ||
  decide ('0' ≤ c ∧ c ≤ '9') || decide (c = '-') || decide (c = '_')

/-- Modelled from `jwt.DecodeSegment` followed by JSON unmarshalling of the
decoded bytes: the segment must be base64url text whose length is a possible
padded-decode length. The JSON-well-formedness check of the decoded bytes is
abstracted away (a segment the model accepts may still fail in Go; every
segment the model rejects fails in Go). -/
def segmentDecodes (s : List Char) : Bool :=
  s.all b64urlChar && decide (s.length % 4 ≠ 1)

/-- `strings.Split` on the separator `"."` (the splitting `ParseUnverified`
performs), written as structural recursion over the characters. -/
def splitOnDot (l : List Char) : List (List Char) :=
  match l with
  | [] => [[]]
  | c :: t =>
    if c = '.' then [] :: splitOnDot t
    else
      match splitOnDot t with
      | [] => [[c]]
      | seg :: segs => (c :: seg) :: segs

/-- The token value produced by the `golang-jwt/jwt` parser. `valid` is the
`Token.Valid` field: it is set to `true` only by the signature-verifying
`Parser.Parse`, never by `Parser.ParseUnverified`. -/
structure Token where
  raw : String
  valid : Bool
deriving DecidableEq, Repr

/-- Modelled from `jwt.Parser.ParseUnverified`: splits the token on `"."`,
requires exactly three segments, decodes the header and claims segments, and
returns a token whose `Valid` flag is NOT set (it stays `false`; only the
signature-verifying `Parse` sets it). -/
def parseUnverified (s : String) : Except String Token :=
  if (splitOnDot s.data).length ≠ 3 then
    .error "token contains an invalid number of segments"
  else if segmentDecodes ((splitOnDot s.data).getD 0 []) &&
          segmentDecodes ((splitOnDot s.data).getD 1 []) then
    .ok { raw := s, valid := false }
  else
    .error "error decoding token segment"

/-- Embeds `validateBearerToken` (client.go lines 136-148): parse the token
with `ParseUnverified`, then fail with "invalid token" when `token.Valid` is
not set. -/
def validateBearerToken (tokenString : String) : Except String Unit :=
  match parseUnverified tokenString with
  | .error err => .error err
  | .ok token => if !token.valid then .error "invalid token" else .ok ()

/-- The error taxonomy of the spec (§4.1) with the payloads the code carries;
each constructor corresponds to one failure site of client.go. -/
inductive ClientError where
  | configError (msg : String)
  | encodingError (msg : String)
  | transportError (msg : String)
  | remoteError (statusCode : Nat)
  | decodingError (msg : String)
deriving DecidableEq, Repr

/-- Embeds the `Client` struct of client.go. -/
structure Client where
  BaseUrl : String
  token : String
deriving DecidableEq, Repr

/-- Embeds `New` (client.go lines 29-47): validate the base URL with
`url.Parse`, validate the token with `validateBearerToken`, and only then
populate and return the client. Both failure sites are `ConfigError`s in the
spec's taxonomy. -/
def New (baseULR token : String) : Except ClientError Client :=
  match urlParse baseULR with
  | .error err => .error (.configError ("error parsing base URL -> " ++ err))
  | .ok _ =>
    match validateBearerToken token with
    | .error err => .error (.configError ("error validating bearer token -> " ++ err))
    | .ok _ => .ok { BaseUrl := baseULR, token := token }

/-- A structurally well-formed JWT (`header.claims.signature`, base64url
segments holding JSON): it decodes under `ParseUnverified`. -/
def validJwtSample : String :=
  "eyJhbGciOiJIUzI1NiIsInR5cCI6IkpXVCJ9.e30.c2ln"

/-- JSON values, modelling the `encoding/json` data that crosses the wire.
Request bytes and parsed response bodies are modelled at the JSON-value level
(a JSON value standing for its serialized bytes); Go map iteration order is
abstracted by association-list order. -/
inductive Json where
  | null
  | bool (b : Bool)
  | num (n : Int)
  | str (s : String)
  | arr (elems : List Json)
  | obj (fields : List (String × Json))

/-- Embeds `CreateRuntimeGroupRequest` (client.go lines 50-55); `Labels` models
the Go `map[string]string`. -/
structure CreateRuntimeGroupRequest where
  Name : String
  Description : String
  ClusterType : String
  Labels : List (String × String)

/-- The anonymous `Config` struct nested in `CreateRuntimeGroupResponse`. -/
structure RGConfig where
  ControlPlaneEndpoint : String
  TelemetryEndpoint : String
deriving DecidableEq, Repr

/-- Embeds `CreateRuntimeGroupResponse` (client.go lines 57-69). -/
structure CreateRuntimeGroupResponse where
  ID : String
  Name : String
  Description : String
  Labels : List (String × String)
  Config : RGConfig
  CreatedAt : String
  UpdatedAt : String
deriving DecidableEq, Repr

/-- An outbound HTTP request as built by `CreateRuntimeGroup` and `do`. -/
structure HttpRequest where
  method : String
  url : String
  headers : List (String × String)
  body : Json

/-- An HTTP response as consumed by `CreateRuntimeGroup`: the status code and
the body, `none` standing for a body that is not syntactically valid JSON. -/
structure HttpResponse where
  statusCode : Nat
  body : Option Json

/-- The Go library surface `CreateRuntimeGroup` calls through: `json.Marshal`
of the request struct, `url.JoinPath`, and the transport send
(`http.Client.Do`). Theorems instantiate `send` with stub transports, matching
the spec's stub-transport test vocabulary. -/
structure GoLib where
  marshal : CreateRuntimeGroupRequest → Except String Json
  joinPath : String → String → Except String String
  send : HttpRequest → Except String HttpResponse

/-- `runtimeGroupEndpoint` (client.go line 15). -/
def runtimeGroupEndpoint : String := "/create-runtime-group"

/-- Modelled from `json.Marshal` on `CreateRuntimeGroupRequest`: an object with
the struct's tag names in declaration order; for this all-string struct the
encoder cannot fail. -/
def encodeRequest (r : CreateRuntimeGroupRequest) : Json :=
  .obj [("name", .str r.Name), ("description", .str r.Description),
        ("cluster_type", .str r.ClusterType),
        ("labels", .obj (r.Labels.map fun kv => (kv.1, Json.str kv.2)))]

/-- `json.Marshal` as a `GoLib` component. -/
def goMarshal (r : CreateRuntimeGroupRequest) : Except String Json :=
  .ok (encodeRequest r)

/-- Whether a URL string ends in a slash (the case `url.JoinPath` cleans). -/
def endsWithSlash (s : String) : Bool :=
  s.data.getLast? == some '/'

/-- The string with its last character removed. -/
def dropLastChar (s : String) : String :=
  String.mk s.data.dropLast

/-- Modelled from `url.JoinPath base elem` for a single leading-slash element:
fails when the base does not parse; otherwise appends the element to the base,
collapsing the duplicate slash of a trailing-slash base. -/
def urlJoinPath (base elem : String) : Except String String :=
  if urlParseOk base then
    .ok ((if endsWithSlash base then dropLastChar base else base) ++ elem)
  else
    .error "invalid base URL"

/-- First binding of a key in a JSON object's fields (Go decode of an object
with distinct keys). -/
def lookupField (fields : List (String × Json)) (key : String) : Option Json :=
  match fields with
  | [] => none
  | (k, v) :: rest => if k = key then some v else lookupField rest key

/-- Go `encoding/json` decode of one string-typed struct field: an absent key
or JSON null leaves the zero value `""`; a JSON string is taken verbatim; any
other JSON value is a type mismatch error. -/
def getStr (fields : List (String × Json)) (key : String) : Except String String :=
  match lookupField fields key with
  | none => .ok ""
  | some .null => .ok ""
  | some (.str s) => .ok s
  | some _ => .error "json: cannot unmarshal value into field of type string"

/-- Go decode of a `map[string]string` object body: every value must be a
string (null becoming the zero string). -/
def decodeStrMap (kvs : List (String × Json)) : Except String (List (String × String)) :=
  match kvs with
  | [] => .ok []
  | (k, .str v) :: rest => (decodeStrMap rest).map fun tail => (k, v) :: tail
  | (k, .null) :: rest => (decodeStrMap rest).map fun tail => (k, "") :: tail
  | _ => .error "json: cannot unmarshal value into map of type string"

/-- Go decode of the `labels` field into `map[string]string`. -/
def getLabels (fields : List (String × Json)) : Except String (List (String × String)) :=
  match lookupField fields "labels" with
  | none => .ok []
  | some .null => .ok []
  | some (.obj kvs) => decodeStrMap kvs
  | some _ => .error "json: cannot unmarshal value into field of type map"

/-- Go decode of the nested `config` struct field. -/
def getConfig (fields : List (String × Json)) : Except String RGConfig :=
  match lookupField fields "config" with
  | none => .ok { ControlPlaneEndpoint := "", TelemetryEndpoint := "" }
  | some .null => .ok { ControlPlaneEndpoint := "", TelemetryEndpoint := "" }
  | some (.obj kvs) =>
    match getStr kvs "control_plane_endpoint", getStr kvs "telemetry_endpoint" with
    | .ok cp, .ok te => .ok { ControlPlaneEndpoint := cp, TelemetryEndpoint := te }
    | _, _ => .error "json: cannot unmarshal value into field of type struct"
  | some _ => .error "json: cannot unmarshal value into field of type struct"

/-- The zero `CreateRuntimeGroupResponse` the decoder starts from. -/
def zeroResponse : CreateRuntimeGroupResponse :=
  { ID := "", Name := "", Description := "", Labels := [],
    Config := { ControlPlaneEndpoint := "", TelemetryEndpoint := "" },
    CreatedAt := "", UpdatedAt := "" }

/-- Modelled from `json.Decoder.Decode` into `CreateRuntimeGroupResponse`:
a JSON object is decoded field by field through the tag names (unknown keys
ignored, absent keys left at their zero values); top-level `null` leaves the
zero struct; any other top-level value is a type error. -/
def decodeResponseJson (j : Json) : Except String CreateRuntimeGroupResponse :=
  match j with
  | .null => .ok zeroResponse
  | .obj fields =>
    match getStr fields "id", getStr fields "name", getStr fields "description",
          getLabels fields, getConfig fields, getStr fields "created_at",
          getStr fields "updated_at" with
    | .ok i, .ok n, .ok d, .ok ls, .ok cfg, .ok ca, .ok ua =>
      .ok { ID := i, Name := n, Description := d, Labels := ls, Config := cfg,
            CreatedAt := ca, UpdatedAt := ua }
    | _, _, _, _, _, _, _ => .error "json: cannot unmarshal response field"
  | _ => .error "json: cannot unmarshal value into CreateRuntimeGroupResponse"

/-- Decode of a response body: a body that is not valid JSON fails outright;
a parsed value decodes per `decodeResponseJson`. -/
def decodeResponse (body : Option Json) : Except String CreateRuntimeGroupResponse :=
  match body with
  | none => .error "invalid character in JSON body"
  | some j => decodeResponseJson j

/-- Embeds `codeToErr` (client.go lines 127-133): any status other than 201
(`StatusCreated`) and 200 (`StatusOK`) is an error carrying the code. -/
def codeToErr (code : Nat) : Option ClientError :=
  if code ≠ 201 ∧ code ≠ 200 then some (.remoteError code) else none

/-- Embeds `CreateRuntimeGroup` (client.go lines 72-105) together with the
header-setting half of `do` (lines 107-120): marshal the body, join the
endpoint URL, build the POST request with the JSON and bearer headers, send it
once, gate on the status code, then decode the body. `http.NewRequest` with
the constant method and an already-parsed URL cannot fail and is not given a
failure branch. The second component is the trace of requests handed to the
transport, so network effects are visible to the theorems. -/
def CreateRuntimeGroup (lib : GoLib) (c : Client)
    (requestBody : CreateRuntimeGroupRequest) :
    Except ClientError CreateRuntimeGroupResponse × List HttpRequest :=
  match lib.marshal requestBody with
  | .error err => (.error (.encodingError err), [])
  | .ok bodyJson =>
    match lib.joinPath c.BaseUrl runtimeGroupEndpoint with
    | .error err => (.error (.configError err), [])
    | .ok endpoint =>
      match lib.send { method := "POST", url := endpoint,
                       headers := [("Content-Type", "application/json"),
                                   ("Authorization", "Bearer " ++ c.token)],
                       body := bodyJson } with
      | .error err =>
        (.error (.transportError err),
         [{ method := "POST", url := endpoint,
            headers := [("Content-Type", "application/json"),
                        ("Authorization", "Bearer " ++ c.token)],
            body := bodyJson }])
      | .ok resp =>
        (match codeToErr resp.statusCode with
         | some err => .error err
         | none =>
           match decodeResponse resp.body with
           | .error err => .error (.decodingError err)
           | .ok createResponse => .ok createResponse,
         [{ method := "POST", url := endpoint,
            headers := [("Content-Type", "application/json"),
                        ("Authorization", "Bearer " ++ c.token)],
            body := bodyJson }])

/-- The status-then-decode tail of `CreateRuntimeGroup`, named so theorems can
factor the stub-transport runs. -/
def statusDecodePhase (resp : HttpResponse) :
    Except ClientError CreateRuntimeGroupResponse :=
  match codeToErr resp.statusCode with
  | some err => .error err
  | none =>
    match decodeResponse resp.body with
    | .error err => .error (.decodingError err)
    | .ok r => .ok r

/-- The endpoint URL `url.JoinPath` produces for a parseable base. -/
def joinedUrl (base : String) : String :=
  (if endsWithSlash base then dropLastChar base else base) ++ runtimeGroupEndpoint

/-- The one request `CreateRuntimeGroup` sends. -/
def sentRequest (c : Client) (requestBody : CreateRuntimeGroupRequest) : HttpRequest :=
  { method := "POST", url := joinedUrl c.BaseUrl,
    headers := [("Content-Type", "application/json"),
                ("Authorization", "Bearer " ++ c.token)],
    body := encodeRequest requestBody }

/-- `GoLib` with the real marshal and join models and a stub transport that
always answers `resp`. -/
def stubLib (resp : HttpResponse) : GoLib :=
  { marshal := goMarshal, joinPath := urlJoinPath, send := fun _ => .ok resp }

/-- Top-level field names of a JSON object (the serialized body's keys). -/
def jsonTopFields (j : Json) : List String :=
  match j with
  | .obj fields => fields.map Prod.fst
  | _ => []

/-- Terraform framework `types.String` (`basetypes.StringValue`): a known
string, null, or unknown. -/
inductive TfString where
  | known (s : String)
  | nullValue
  | unknownValue
deriving DecidableEq, Repr

/-- Modelled from Go `%q` (`strconv.Quote`) restricted to quote/backslash
escaping: the value wrapped in double quotes with `"` and `\` backslash
escaped; escaping of control and non-ASCII characters is not modelled
further. -/
def quoteChar (c : Char) : List Char :=
  if c = '"' ∨ c = '\\' then ['\\', c] else [c]

/-- Go-quoted rendering of a string (always carries the surrounding quotes). -/
def goQuote (s : String) : String :=
  String.mk ('"' :: ((s.data.flatMap quoteChar) ++ ['"']))

/-- Modelled from `basetypes.StringValue.String()`: `"<null>"` for null,
`"<unknown>"` for unknown, and the `%q`-quoted value otherwise. -/
def TfString.render (v : TfString) : String :=
  match v with
  | .known s => goQuote s
  | .nullValue => "<null>"
  | .unknownValue => "<unknown>"

/-- Modelled from `basetypes.StringValue.ValueString()`: the raw value, with
`""` for null and unknown. -/
def TfString.valueString (v : TfString) : String :=
  match v with
  | .known s => s
  | .nullValue => ""
  | .unknownValue => ""

/-- Embeds `RuntimeGroupModel` (runtime_group_resource.go lines 34-42);
`Labels` models the `types.Map` of string elements declared by the schema. -/
structure RuntimeGroupModel where
  Id : TfString
  Name : TfString
  Description : TfString
  ClusterType : TfString
  Labels : List (String × TfString)
  ControlPlaneEndpoint : TfString
  TelemetryEndpoint : TfString
deriving DecidableEq, Repr

/-- The request `Create` builds (runtime_group_resource.go lines 116-126):
each label value is rendered with the framework `String()` method, the scalar
fields with `ValueString()`. -/
def buildCreateRequest (data : RuntimeGroupModel) : CreateRuntimeGroupRequest :=
  { Name := data.Name.valueString,
    Description := data.Description.valueString,
    ClusterType := data.ClusterType.valueString,
    Labels := data.Labels.map fun kv => (kv.1, kv.2.render) }

/-- Embeds the resource `Create` method (runtime_group_resource.go lines
106-140): build the create request from the plan, call the client, and on
success store the computed endpoints and set the state `Id` to the plan's
`Name`; on client error add a diagnostic and save no state (`none`). The
request trace is passed through from the client. -/
def Create (lib : GoLib) (cl : Client) (plan : RuntimeGroupModel) :
    Option RuntimeGroupModel × List HttpRequest :=
  match CreateRuntimeGroup lib cl (buildCreateRequest plan) with
  | (.error _, tr) => (none, tr)
  | (.ok createResp, tr) =>
    (some { plan with
        ControlPlaneEndpoint := .known createResp.Config.ControlPlaneEndpoint,
        TelemetryEndpoint := .known createResp.Config.TelemetryEndpoint,
        Id := plan.Name }, tr)

/-- Substring test over character lists. -/
def hasSubList (s pat : List Char) : Bool :=
  match s with
  | [] => pat.isEmpty
  | c :: t => pat.isPrefixOf (c :: t) || hasSubList t pat

/-- Modelled from Go `regexp` (RE2): a pattern containing the Perl lookahead
opener `(?!` is rejected by the parser ("invalid or unsupported Perl
syntax"). -/
def re2CompileOk (pattern : String) : Bool :=
  !(hasSubList pattern.data ("(?!").data)

/-- The label-key pattern passed to `regexp.MustCompile` in `Schema`
(runtime_group_resource.go line 68): `^(?!kong|konnect|mesh|kic).\x7b1,63\x7d$`. -/
def labelKeyPattern : String := "^(?!kong|konnect|mesh|kic).\x7b1,63\x7d$"

/-- Modelled from `regexp.MustCompile`: the compiled pattern, or `none` for the
panic raised on a compile error. -/
def regexpMustCompile (pattern : String) : Option String :=
  if re2CompileOk pattern then some pattern else none

/-- The label-key validator regex the `Schema` method constructs; `none` means
the schema declaration panics. -/
def schemaLabelValidatorRegex : Option String :=
  regexpMustCompile labelKeyPattern

/-- Concrete client used by witnesses. -/
def wClient : Client := { BaseUrl := "https://example.com", token := "tok" }

/-- Concrete request used by witnesses. -/
def wReq : CreateRuntimeGroupRequest :=
  { Name := "", Description := "", ClusterType := "", Labels := [] }

/-- Concrete labelled request used by the C5 witness. -/
def wReq5 : CreateRuntimeGroupRequest :=
  { Name := "grp", Description := "d", ClusterType := "ct", Labels := [("k", "v")] }

/-- Stub response used by the C5 witness. -/
def w5resp : HttpResponse := { statusCode := 201, body := some Json.null }

/-- Response fields used by the C6 witness. -/
def w6fields : List (String × Json) :=
  [("id", Json.str "rg-1"), ("name", Json.str "grp"),
   ("labels", Json.obj [("k", Json.str "v")]),
   ("config", Json.obj [("control_plane_endpoint", Json.str "cp"),
                        ("telemetry_endpoint", Json.str "te")]),
   ("created_at", Json.str "t0"), ("updated_at", Json.str "t1")]

/-- `GoLib` whose marshal rejects the body, used by the C8 witness. -/
def w8lib : GoLib :=
  { marshal := fun _ => .error "json: unsupported type",
    joinPath := urlJoinPath,
    send := fun _ => .ok { statusCode := 200, body := some Json.null } }

/-- Concrete plan used by the C9 witness: the server answers with id `srv-1`,
the plan's name is `grp`. -/
def w9plan : RuntimeGroupModel :=
  { Id := .unknownValue, Name := .known "grp", Description := .known "d",
    ClusterType := .known "ct", Labels := [],
    ControlPlaneEndpoint := .unknownValue, TelemetryEndpoint := .unknownValue }

/-- Stub response body used by the C9 witness. -/
def w9body : Json := Json.obj [("id", Json.str "srv-1")]

/-- Concrete plan used by the C10 witness. -/
def w10plan : RuntimeGroupModel :=
  { Id := .unknownValue, Name := .known "grp", Description := .nullValue,
    ClusterType := .nullValue, Labels := [("env", .known "prod")],
    ControlPlaneEndpoint := .unknownValue, TelemetryEndpoint := .unknownValue }

theorem parseUnverified_not_valid (s : String) (tk : Token)
    (h : parseUnverified s = .ok tk) : tk.valid = false := by
  unfold parseUnverified at h
  split at h
  · cases h
  · split at h
    · cases h; rfl
    · cases h

theorem validateBearerToken_always_fails (t : String) :
    ∃ err, validateBearerToken t = .error err := by
  unfold validateBearerToken
  cases hp : parseUnverified t with
  | error err => exact ⟨err, rfl⟩
  | ok tk =>
    refine ⟨"invalid token", ?_⟩
    simp [parseUnverified_not_valid t tk hp]

/-- C1: the claim says construction succeeds for every decodable token marked
valid by the decoder; in the code `ParseUnverified` never marks a token valid,
so `New` rejects every base address / token pair — including the structurally
valid sample JWT, which does decode. -/
theorem new_rejects_every_token :
    (∀ baseULR token, isOkE (New baseULR token) = false) ∧
    isOkE (parseUnverified validJwtSample) = true := by
  constructor
  · intro b t
    unfold New
    cases hu : urlParse b with
    | error err => rfl
    | ok u =>
      obtain ⟨err, he⟩ := validateBearerToken_always_fails t
      simp [he, isOkE]
  · decide

/-- C3: whenever the token fails structural decode, or decodes to a token not
marked valid, or the base address fails URI parsing, `New` returns a
`ConfigError` and no client value. -/
theorem new_fails_with_config_error (baseULR token : String)
    (h : isOkE (parseUnverified token) = false
       ∨ (∃ tk, parseUnverified token = .ok tk ∧ tk.valid = false)
       ∨ isOkE (urlParse baseULR) = false) :
    ∃ msg, New baseULR token = .error (ClientError.configError msg) := by
  clear h
  unfold New
  cases hu : urlParse baseULR with
  | error err => exact ⟨_, rfl⟩
  | ok u =>
    obtain ⟨err, he⟩ := validateBearerToken_always_fails token
    exact ⟨"error validating bearer token -> " ++ err, by simp [he]⟩

theorem new_fails_with_config_error_witness :
    isOkE (parseUnverified "x") = false ∧
    ∃ msg, New "https://example.com" "x" = .error (ClientError.configError msg) :=
  ⟨by decide, new_fails_with_config_error "https://example.com" "x" (Or.inl (by decide))⟩

/-- C2: the claim says the schema's label-key validator is well-defined and
accepts exactly the keys of length 1-63 without the forbidden prefixes; in
fact the pattern uses the Perl lookahead `(?!`, which Go's RE2 `regexp`
rejects, so `regexp.MustCompile` panics and the `Schema` method faults before
any key can be validated. -/
theorem schema_label_regex_does_not_compile :
    schemaLabelValidatorRegex = none ∧ re2CompileOk labelKeyPattern = false := by
  constructor
  · decide
  · decide

theorem create_stub_run (c : Client) (requestBody : CreateRuntimeGroupRequest)
    (resp : HttpResponse) (hbase : urlParseOk c.BaseUrl = true) :
    CreateRuntimeGroup (stubLib resp) c requestBody =
      (statusDecodePhase resp, [sentRequest c requestBody]) := by
  simp [CreateRuntimeGroup, stubLib, goMarshal, urlJoinPath, hbase,
        statusDecodePhase, sentRequest, joinedUrl]

theorem codeToErr_none_iff (code : Nat) :
    codeToErr code = none ↔ (code = 200 ∨ code = 201) := by
  unfold codeToErr
  split
  · simp; omega
  · simp; omega

theorem codeToErr_some (code : Nat) (h : ¬(code = 200 ∨ code = 201)) :
    codeToErr code = some (.remoteError code) := by
  unfold codeToErr
  split
  · rfl
  · omega

/-- C4: with a stub transport and a decodable body, `CreateRuntimeGroup`
succeeds exactly when the status is 200 or 201; for any other status it
returns `RemoteError` carrying the code and no response value, whatever the
body holds (the body is never inspected on the failure path). -/
theorem create_status_gate (c : Client) (requestBody : CreateRuntimeGroupRequest)
    (code : Nat) (goodBody otherBody : Option Json) (r : CreateRuntimeGroupResponse)
    (hbase : urlParseOk c.BaseUrl = true)
    (hdec : decodeResponse goodBody = .ok r) :
    ((∃ res, (CreateRuntimeGroup (stubLib { statusCode := code, body := goodBody }) c
        requestBody).1 = .ok res) ↔ (code = 200 ∨ code = 201)) ∧
    (¬(code = 200 ∨ code = 201) →
      (CreateRuntimeGroup (stubLib { statusCode := code, body := otherBody }) c
        requestBody).1 = .error (.remoteError code)) := by
  constructor
  · constructor
    · rintro ⟨res, hres⟩
      by_contra hcode
      rw [create_stub_run c requestBody _ hbase] at hres
      simp [statusDecodePhase, codeToErr_some code hcode] at hres
    · intro hcode
      refine ⟨r, ?_⟩
      rw [create_stub_run c requestBody _ hbase]
      simp [statusDecodePhase, (codeToErr_none_iff code).mpr hcode, hdec]
  · intro hcode
    rw [create_stub_run c requestBody _ hbase]
    simp [statusDecodePhase, codeToErr_some code hcode]

theorem create_status_gate_witness :
    urlParseOk wClient.BaseUrl = true ∧
    (((∃ res, (CreateRuntimeGroup (stubLib { statusCode := 404, body := some Json.null })
        wClient wReq).1 = .ok res) ↔ ((404 : Nat) = 200 ∨ (404 : Nat) = 201)) ∧
     (¬((404 : Nat) = 200 ∨ (404 : Nat) = 201) →
       (CreateRuntimeGroup (stubLib { statusCode := 404, body := none }) wClient
         wReq).1 = .error (.remoteError 404))) :=
  ⟨by decide,
   create_status_gate wClient wReq 404 (some Json.null) none zeroResponse (by decide) rfl⟩

/-- C5: each stub-transport call sends exactly one request: a POST to
`<baseAddress>/create-runtime-group` with the JSON content type and bearer
authorization headers, whose JSON body has exactly the field names `name`,
`description`, `cluster_type`, `labels`. -/
theorem create_single_post_request (c : Client)
    (requestBody : CreateRuntimeGroupRequest) (resp : HttpResponse)
    (hbase : urlParseOk c.BaseUrl = true)
    (hnoslash : endsWithSlash c.BaseUrl = false) :
    (CreateRuntimeGroup (stubLib resp) c requestBody).2 =
      [{ method := "POST",
         url := c.BaseUrl ++ "/create-runtime-group",
         headers := [("Content-Type", "application/json"),
                     ("Authorization", "Bearer " ++ c.token)],
         body := encodeRequest requestBody }] ∧
    jsonTopFields (encodeRequest requestBody) =
      ["name", "description", "cluster_type", "labels"] := by
  constructor
  · rw [create_stub_run c requestBody resp hbase]
    simp [sentRequest, joinedUrl, hnoslash, runtimeGroupEndpoint]
  · rfl

theorem create_single_post_request_witness :
    urlParseOk wClient.BaseUrl = true ∧
    endsWithSlash wClient.BaseUrl = false ∧
    ((CreateRuntimeGroup (stubLib w5resp) wClient wReq5).2 =
      [{ method := "POST",
         url := wClient.BaseUrl ++ "/create-runtime-group",
         headers := [("Content-Type", "application/json"),
                     ("Authorization", "Bearer " ++ wClient.token)],
         body := encodeRequest wReq5 }] ∧
     jsonTopFields (encodeRequest wReq5) =
       ["name", "description", "cluster_type", "labels"]) :=
  ⟨by decide, by decide,
   create_single_post_request wClient wReq5 w5resp (by decide) (by decide)⟩

/-- C6: on a success status with a valid JSON object body, the call returns a
response whose fields are exactly the values decoded from the JSON keys `id`,
`name`, `description`, `labels`, `config` (with its endpoint keys),
`created_at` and `updated_at`. -/
theorem create_response_round_trip (c : Client)
    (requestBody : CreateRuntimeGroupRequest) (code : Nat)
    (fields : List (String × Json)) (i n d ca ua : String)
    (ls : List (String × String)) (cfg : RGConfig)
    (hbase : urlParseOk c.BaseUrl = true)
    (hcode : code = 200 ∨ code = 201)
    (hid : getStr fields "id" = .ok i)
    (hname : getStr fields "name" = .ok n)
    (hdesc : getStr fields "description" = .ok d)
    (hlabels : getLabels fields = .ok ls)
    (hconfig : getConfig fields = .ok cfg)
    (hca : getStr fields "created_at" = .ok ca)
    (hua : getStr fields "updated_at" = .ok ua) :
    (CreateRuntimeGroup (stubLib { statusCode := code, body := some (.obj fields) }) c
        requestBody).1 =
      .ok { ID := i, Name := n, Description := d, Labels := ls, Config := cfg,
            CreatedAt := ca, UpdatedAt := ua } := by
  rw [create_stub_run c requestBody _ hbase]
  simp [statusDecodePhase, (codeToErr_none_iff code).mpr hcode, decodeResponse,
        decodeResponseJson, hid, hname, hdesc, hlabels, hconfig, hca, hua]

theorem create_response_round_trip_witness :
    getStr w6fields "id" = .ok "rg-1" ∧
    getConfig w6fields = .ok { ControlPlaneEndpoint := "cp", TelemetryEndpoint := "te" } ∧
    (CreateRuntimeGroup (stubLib { statusCode := 201, body := some (.obj w6fields) })
        wClient wReq).1 =
      .ok { ID := "rg-1", Name := "grp", Description := "", Labels := [("k", "v")],
            Config := { ControlPlaneEndpoint := "cp", TelemetryEndpoint := "te" },
            CreatedAt := "t0", UpdatedAt := "t1" } :=
  ⟨rfl, rfl,
   create_response_round_trip wClient wReq 201 w6fields "rg-1" "grp" "" "t0" "t1"
     [("k", "v")] { ControlPlaneEndpoint := "cp", TelemetryEndpoint := "te" }
     (by decide) (Or.inr rfl) rfl rfl rfl rfl rfl rfl rfl⟩

/-- C7: on a success status whose body does not decode as a valid
`CreateRuntimeGroupResponse`, the call returns a `DecodingError` and no
response value. -/
theorem create_decoding_error (c : Client) (requestBody : CreateRuntimeGroupRequest)
    (code : Nat) (body : Option Json)
    (hbase : urlParseOk c.BaseUrl = true)
    (hcode : code = 200 ∨ code = 201)
    (hdec : isOkE (decodeResponse body) = false) :
    ∃ msg, (CreateRuntimeGroup (stubLib { statusCode := code, body := body }) c
      requestBody).1 = .error (.decodingError msg) := by
  rw [create_stub_run c requestBody _ hbase]
  cases hb : decodeResponse body with
  | error err =>
    exact ⟨err, by simp [statusDecodePhase, (codeToErr_none_iff code).mpr hcode, hb]⟩
  | ok r =>
    rw [hb] at hdec
    cases hdec

theorem create_decoding_error_witness :
    isOkE (decodeResponse none) = false ∧
    ∃ msg, (CreateRuntimeGroup (stubLib { statusCode := 200, body := none }) wClient
      wReq).1 = .error (.decodingError msg) :=
  ⟨rfl, create_decoding_error wClient wReq 200 none (by decide) (Or.inl rfl) rfl⟩

/-- C8: whenever the request body fails to serialize, the call returns an
`EncodingError` and the request trace is empty — no HTTP request is built or
sent. -/
theorem create_encoding_error_before_io (lib : GoLib) (c : Client)
    (requestBody : CreateRuntimeGroupRequest) (err : String)
    (hm : lib.marshal requestBody = .error err) :
    CreateRuntimeGroup lib c requestBody = (.error (.encodingError err), []) := by
  simp [CreateRuntimeGroup, hm]

theorem create_encoding_error_before_io_witness :
    w8lib.marshal wReq = .error "json: unsupported type" ∧
    CreateRuntimeGroup w8lib wClient wReq =
      (.error (.encodingError "json: unsupported type"), []) :=
  ⟨rfl, create_encoding_error_before_io w8lib wClient wReq "json: unsupported type" rfl⟩

/-- C9: whenever the provider `Create` saves state, the saved identifier is
the plan's `Name` value, not the server-issued response id. -/
theorem create_state_id_is_name (lib : GoLib) (cl : Client)
    (plan state : RuntimeGroupModel) (tr : List HttpRequest)
    (h : Create lib cl plan = (some state, tr)) :
    state.Id = plan.Name := by
  unfold Create at h
  cases hc : CreateRuntimeGroup lib cl (buildCreateRequest plan) with
  | mk res tr' =>
    rw [hc] at h
    cases res with
    | error err => cases h
    | ok createResp =>
      have hs : some _ = some state := congrArg Prod.fst h
      cases hs
      rfl

theorem create_state_id_is_name_witness :
    ∃ state tr,
      Create (stubLib { statusCode := 201, body := some w9body }) wClient w9plan =
        (some state, tr) ∧ state.Id = w9plan.Name :=
  ⟨_, _, rfl,
   create_state_id_is_name (stubLib { statusCode := 201, body := some w9body })
     wClient w9plan _ _ rfl⟩

theorem quoteChar_one_le (c : Char) : 1 ≤ (quoteChar c).length := by
  unfold quoteChar
  split <;> simp

theorem flatMap_quoteChar_le (l : List Char) :
    l.length ≤ (l.flatMap quoteChar).length := by
  induction l with
  | nil => simp
  | cons c t ih =>
    rw [List.flatMap_cons, List.length_append]
    have := quoteChar_one_le c
    simp only [List.length_cons]
    omega

theorem goQuote_longer (s : String) : s.length < (goQuote s).length := by
  have h := flatMap_quoteChar_le s.data
  simp only [goQuote, String.length, List.length_cons, List.length_append]
  simp only [String.length] at h
  omega

/-- C10: the labels map the provider sends maps each plan key holding a known
string value to the framework `String()` rendering of that value — the
Go-quoted form, which starts and ends with a double quote and is never the raw
string itself. -/
theorem create_labels_rendered_quoted (plan : RuntimeGroupModel) (k s : String)
    (h : (k, TfString.known s) ∈ plan.Labels) :
    (k, goQuote s) ∈ (buildCreateRequest plan).Labels ∧
    (goQuote s).data.head? = some '"' ∧
    (goQuote s).data.getLast? = some '"' ∧
    goQuote s ≠ s := by
  refine ⟨?_, rfl, ?_, ?_⟩
  · have hm := List.mem_map_of_mem (fun kv => (kv.1, TfString.render kv.2)) h
    simpa [buildCreateRequest, TfString.render] using hm
  · show ('"' :: ((s.data.flatMap quoteChar) ++ ['"'])).getLast? = some '"'
    rw [← List.cons_append]
    exact List.getLast?_concat _
  · intro heq
    have := goQuote_longer s
    rw [heq] at this
    omega

theorem create_labels_rendered_quoted_witness :
    (("env", TfString.known "prod") ∈ w10plan.Labels) ∧
    ((("env" : String), goQuote "prod") ∈ (buildCreateRequest w10plan).Labels ∧
     (goQuote "prod").data.head? = some '"' ∧
     (goQuote "prod").data.getLast? = some '"' ∧
     goQuote "prod" ≠ "prod") :=
  ⟨by decide, create_labels_rendered_quoted w10plan "env" "prod" (by decide)⟩
